import Mathlib

/-! Verification of the multi-aspect text-analysis facade in
`backend/life_saver/nlp/nlp.js`.

The module under study issues up to four independent requests to a remote
language service (sentiment, entities, syntactic tokens, content
classification), reshapes each raw response, and aggregates the results into
a four-slot outcome.  The function `analyzeText` performs the calls with no
error handling; `analyzeTextWrapper` wraps it in a try/catch that replaces
the whole outcome with fixed placeholder values on any failure.

Shallow embedding choices:
* The remote collaborator is a record `LanguageServiceClient` of four
  functions from a `Document` to `Except String` of a kind-specific raw
  response; `Except.error` models a thrown/rejected remote call.
* JavaScript numbers appearing in responses (magnitude, score, salience,
  confidence) are modelled as `Rat`.
* Raw collaborator records may carry attributes beyond the ones the code
  reads (the real service returns entity mentions, metadata, token lemmas,
  dependency edges, ...); these are modelled by an `extra` association-list
  field on raw entities, raw tokens and raw categories.  Records that the
  code itself constructs are modelled by structures having exactly the
  fields the code writes; an absent field (element 0 of the sentiment list
  has no `text`) is `Option.none`.
* `analyzeText` is `async` and its `await`s propagate rejections, so it is
  embedded in the `Except String` monad; sequencing of the four blocks
  matches the source order (sentiment, entities, tokens, classification).
* The JavaScript file builds its client inside `analyzeText` from a key
  file; authentication is out of scope, so the client is a parameter.
-/

/-- Document value sent to the collaborator: `{content: text, type: "PLAIN_TEXT"}`. -/
structure Document where
  content : String
  type : String
deriving Repr, DecidableEq

/-- Raw text span as returned by the service, read via `.content`. -/
structure TextSpan where
  content : String
deriving Repr, DecidableEq

/-- Raw sentiment value `{magnitude, score}` as returned by the service. -/
structure SentimentValue where
  magnitude : Rat
  score : Rat
deriving Repr, DecidableEq

/-- Raw per-sentence record: the code reads `sentence.text.content`,
`sentence.sentiment.magnitude` and `sentence.sentiment.score`. -/
structure Sentence where
  text : TextSpan
  sentiment : SentimentValue
deriving Repr, DecidableEq

/-- Raw response of `client.analyzeSentiment`. -/
structure SentimentResponse where
  documentSentiment : SentimentValue
  sentences : List Sentence
deriving Repr, DecidableEq

/-- Raw entity record.  The code reads `name`, `type` and `salience`; the
service may attach further attributes (mentions, metadata, wikipedia url),
modelled by the `extra` association list. -/
structure Entity where
  name : String
  type : String
  salience : Rat
  extra : List (String × String)
deriving Repr, DecidableEq

/-- Raw response of `client.analyzeEntities`. -/
structure EntitiesResponse where
  entities : List Entity
deriving Repr, DecidableEq

/-- Raw part-of-speech record, read via `.tag`; other morphology attributes
the service supplies are modelled by `extra`. -/
structure PartOfSpeech where
  tag : String
  extra : List (String × String)
deriving Repr, DecidableEq

/-- Raw token record.  The code reads `token.text.content` and
`token.partOfSpeech.tag`; the lemma and dependency edge the service also
supplies are modelled by `lemma_` and `extra`. -/
structure Token where
  text : TextSpan
  partOfSpeech : PartOfSpeech
  lemma_ : String
  extra : List (String × String)
deriving Repr, DecidableEq

/-- Raw response of `client.analyzeSyntax`. -/
structure TokensResponse where
  tokens : List Token
deriving Repr, DecidableEq

/-- Raw category record; the code reads `name` and `confidence`. -/
structure Category where
  name : String
  confidence : Rat
  extra : List (String × String)
deriving Repr, DecidableEq

/-- Raw response of `client.classifyText`. -/
structure ClassifyResponse where
  categories : List Category
deriving Repr, DecidableEq

/-- The remote collaborator: each field models one request kind and may fail
for any reason (`Except.error`), covering unreachable service, rejected
authentication, per-request errors and malformed responses alike. -/
structure LanguageServiceClient where
  analyzeSentiment : Document → Except String SentimentResponse
  analyzeEntities : Document → Except String EntitiesResponse
  analyzeSyntax : Document → Except String TokensResponse
  classifyText : Document → Except String ClassifyResponse

/-- A sentiment output record pushed by the code.  Element 0 is built as
`{magnitude, score}` with no `text` field (`text := none` here); later
elements are built as `{text, magnitude, score}` (`text := some _`). -/
structure SentimentRecord where
  text : Option String
  magnitude : Rat
  score : Rat
deriving Repr, DecidableEq

/-- A syntactic output record: the code pushes objects with exactly the
fields `partOfSpeech` (the tag) and `word` (the token text). -/
structure SyntaxRecord where
  word : String
  partOfSpeech : String
deriving Repr, DecidableEq

/-- A classification output record: the code pushes objects with exactly
the fields `name` and `confidence`. -/
structure ClassificationRecord where
  name : String
  confidence : Rat
deriving Repr, DecidableEq

/-- The four-element outcome `[sentiment_result, entity_result,
syntax_result, classify_result]` returned at nlp.js line 118/151.  The
third slot is named `syntaxSlot` because `syntax` is reserved in Lean. -/
structure AnalysisOutcome where
  sentiment : Option (List SentimentRecord)
  entities : Option (List Entity)
  syntaxSlot : Option (List SyntaxRecord)
  classification : Option (List ClassificationRecord)
deriving Repr, DecidableEq

/-- Sentiment block of `analyzeText` (nlp.js lines 67-83): if the flag is
set, await the call, seed the list with the document-level
`{magnitude, score}` and push one `{text, magnitude, score}` per sentence;
otherwise the slot stays null. -/
def sentimentBlock (client : LanguageServiceClient) (document : Document)
    (flag : Bool) : Except String (Option (List SentimentRecord)) :=
  if flag then
    (client.analyzeSentiment document).map fun raw =>
      some
        ({ text := none
           magnitude := raw.documentSentiment.magnitude
           score := raw.documentSentiment.score } ::
          raw.sentences.map fun sentence =>
            { text := some sentence.text.content
              magnitude := sentence.sentiment.magnitude
              score := sentence.sentiment.score })
  else Except.ok none

/-- Entities block of `analyzeText` (nlp.js lines 86-90): if the flag is
set, await the call and pass the raw `entities` array through unchanged;
otherwise the slot stays null. -/
def entitiesBlock (client : LanguageServiceClient) (document : Document)
    (flag : Bool) : Except String (Option (List Entity)) :=
  if flag then
    (client.analyzeEntities document).map fun raw => some raw.entities
  else Except.ok none

/-- Syntax block of `analyzeText` (nlp.js lines 93-103): if the flag is
set, await the call and push `{partOfSpeech: token.partOfSpeech.tag,
word: token.text.content}` per token; otherwise the slot stays null. -/
def syntaxBlock (client : LanguageServiceClient) (document : Document)
    (flag : Bool) : Except String (Option (List SyntaxRecord)) :=
  if flag then
    (client.analyzeSyntax document).map fun raw =>
      some (raw.tokens.map fun token =>
        { word := token.text.content
          partOfSpeech := token.partOfSpeech.tag })
  else Except.ok none

/-- Classification block of `analyzeText` (nlp.js lines 106-116): if the
flag is set, await the call and push `{name, confidence}` per category;
otherwise the slot stays null. -/
def classifyBlock (client : LanguageServiceClient) (document : Document)
    (flag : Bool) : Except String (Option (List ClassificationRecord)) :=
  if flag then
    (client.classifyText document).map fun raw =>
      some (raw.categories.map fun category =>
        { name := category.name
          confidence := category.confidence })
  else Except.ok none

/-- nlp.js lines 54-119: build the document, run the four blocks in source
order (each `await` propagates a rejection, aborting the rest), and return
the four slots.  There is no try/catch here. -/
def analyzeText (client : LanguageServiceClient) (text : String)
    (sentimentFlag entitiesFlag syntaxFlag classifyFlag : Bool) :
    Except String AnalysisOutcome := do
  let document : Document := { content := text, type := "PLAIN_TEXT" }
  let sentimentResult ← sentimentBlock client document sentimentFlag
  let entityResult ← entitiesBlock client document entitiesFlag
  let syntaxResult ← syntaxBlock client document syntaxFlag
  let classifyResult ← classifyBlock client document classifyFlag
  pure
    { sentiment := sentimentResult
      entities := entityResult
      syntaxSlot := syntaxResult
      classification := classifyResult }

/-- Placeholder sentiment list from the catch block (nlp.js line 141). -/
def sentimentResultDummy : List SentimentRecord :=
  [{ text := none, magnitude := 0, score := 0 },
   { text := some "dummy_text", magnitude := 0, score := 0 }]

/-- Placeholder entity list from the catch block (nlp.js line 142). -/
def entityResultDummy : List Entity :=
  [{ name := "dummy_name", type := "OTHER", salience := 0, extra := [] }]

/-- Placeholder token list from the catch block (nlp.js line 143). -/
def syntaxResultDummy : List SyntaxRecord :=
  [{ word := "dummy_word", partOfSpeech := "NOUN" }]

/-- Placeholder category list from the catch block (nlp.js line 144). -/
def classifyResultDummy : List ClassificationRecord :=
  [{ name := "dummy_category", confidence := 0 }]

/-- Outcome assembled by the catch block (nlp.js lines 146-149): each slot
is its placeholder when its flag is set, null otherwise. -/
def dummyOutcome (sentimentFlag entitiesFlag syntaxFlag classifyFlag : Bool) :
    AnalysisOutcome :=
  { sentiment := if sentimentFlag then some sentimentResultDummy else none
    entities := if entitiesFlag then some entityResultDummy else none
    syntaxSlot := if syntaxFlag then some syntaxResultDummy else none
    classification := if classifyFlag then some classifyResultDummy else none }

/-- nlp.js lines 121-152: call `analyzeText` inside try/catch; on success
return its four slots, on any thrown error return the placeholder outcome.
The wrapper itself never throws, hence its result is always `Except.ok`. -/
def analyzeTextWrapper (client : LanguageServiceClient) (text : String)
    (sentimentFlag entitiesFlag syntaxFlag classifyFlag : Bool) :
    Except String AnalysisOutcome :=
  match analyzeText client text sentimentFlag entitiesFlag syntaxFlag
      classifyFlag with
  | Except.ok result => Except.ok result
  | Except.error _ =>
      Except.ok (dummyOutcome sentimentFlag entitiesFlag syntaxFlag
        classifyFlag)

/-- nlp.js line 202: the module exports `analyzeText`, not the wrapper. -/
def moduleExports : LanguageServiceClient → String → Bool → Bool → Bool →
    Bool → Except String AnalysisOutcome :=
  analyzeText

/-- The projection of a raw entity onto exactly the three fields
`{name, type, salience}`, as the specification describes entity
normalization; in this model dropping every additional attribute means
emptying `extra`.  This definition follows the specification wording, for
comparison with the pass-through the code performs. -/
def projEntity (e : Entity) : Entity :=
  { name := e.name, type := e.type, salience := e.salience, extra := [] }

/-- Unfolding of `analyzeText` as an explicit chain of binds. -/
theorem analyzeText_def (client : LanguageServiceClient) (text : String)
    (f1 f2 f3 f4 : Bool) :
    analyzeText client text f1 f2 f3 f4 =
      (sentimentBlock client { content := text, type := "PLAIN_TEXT" } f1).bind
        fun s =>
      (entitiesBlock client { content := text, type := "PLAIN_TEXT" } f2).bind
        fun e =>
      (syntaxBlock client { content := text, type := "PLAIN_TEXT" } f3).bind
        fun y =>
      (classifyBlock client { content := text, type := "PLAIN_TEXT" } f4).bind
        fun c =>
      Except.ok
        { sentiment := s, entities := e, syntaxSlot := y,
          classification := c } :=
  rfl

/-- Sentiment block with the flag cleared leaves the slot null. -/
theorem sentimentBlock_false (client : LanguageServiceClient) (d : Document) :
    sentimentBlock client d false = Except.ok none :=
  rfl

/-- Sentiment block with the flag set, on a successful call. -/
theorem sentimentBlock_ok (client : LanguageServiceClient) (d : Document)
    (raw : SentimentResponse)
    (h : client.analyzeSentiment d = Except.ok raw) :
    sentimentBlock client d true =
      Except.ok (some
        ({ text := none
           magnitude := raw.documentSentiment.magnitude
           score := raw.documentSentiment.score } ::
          raw.sentences.map fun sentence =>
            { text := some sentence.text.content
              magnitude := sentence.sentiment.magnitude
              score := sentence.sentiment.score })) := by
  simp [sentimentBlock, h, Except.map]

/-- Sentiment block with the flag set propagates a failed call. -/
theorem sentimentBlock_error (client : LanguageServiceClient) (d : Document)
    (e : String) (h : client.analyzeSentiment d = Except.error e) :
    sentimentBlock client d true = Except.error e := by
  simp [sentimentBlock, h, Except.map]

/-- Entities block with the flag cleared leaves the slot null. -/
theorem entitiesBlock_false (client : LanguageServiceClient) (d : Document) :
    entitiesBlock client d false = Except.ok none :=
  rfl

/-- Entities block with the flag set, on a successful call. -/
theorem entitiesBlock_ok (client : LanguageServiceClient) (d : Document)
    (raw : EntitiesResponse)
    (h : client.analyzeEntities d = Except.ok raw) :
    entitiesBlock client d true = Except.ok (some raw.entities) := by
  simp [entitiesBlock, h, Except.map]

/-- Entities block with the flag set propagates a failed call. -/
theorem entitiesBlock_error (client : LanguageServiceClient) (d : Document)
    (e : String) (h : client.analyzeEntities d = Except.error e) :
    entitiesBlock client d true = Except.error e := by
  simp [entitiesBlock, h, Except.map]

/-- Syntax block with the flag cleared leaves the slot null. -/
theorem syntaxBlock_false (client : LanguageServiceClient) (d : Document) :
    syntaxBlock client d false = Except.ok none :=
  rfl

/-- Syntax block with the flag set, on a successful call. -/
theorem syntaxBlock_ok (client : LanguageServiceClient) (d : Document)
    (raw : TokensResponse)
    (h : client.analyzeSyntax d = Except.ok raw) :
    syntaxBlock client d true =
      Except.ok (some (raw.tokens.map fun token =>
        { word := token.text.content
          partOfSpeech := token.partOfSpeech.tag })) := by
  simp [syntaxBlock, h, Except.map]

/-- Syntax block with the flag set propagates a failed call. -/
theorem syntaxBlock_error (client : LanguageServiceClient) (d : Document)
    (e : String) (h : client.analyzeSyntax d = Except.error e) :
    syntaxBlock client d true = Except.error e := by
  simp [syntaxBlock, h, Except.map]

/-- Classification block with the flag cleared leaves the slot null. -/
theorem classifyBlock_false (client : LanguageServiceClient) (d : Document) :
    classifyBlock client d false = Except.ok none :=
  rfl

/-- Classification block with the flag set, on a successful call. -/
theorem classifyBlock_ok (client : LanguageServiceClient) (d : Document)
    (raw : ClassifyResponse)
    (h : client.classifyText d = Except.ok raw) :
    classifyBlock client d true =
      Except.ok (some (raw.categories.map fun category =>
        { name := category.name
          confidence := category.confidence })) := by
  simp [classifyBlock, h, Except.map]

/-- Classification block with the flag set propagates a failed call. -/
theorem classifyBlock_error (client : LanguageServiceClient) (d : Document)
    (e : String) (h : client.classifyText d = Except.error e) :
    classifyBlock client d true = Except.error e := by
  simp [classifyBlock, h, Except.map]

/-- Inversion: a successful run of `analyzeText` means every block
returned `ok` with exactly the slot value recorded in the outcome. -/
theorem analyzeText_ok_inv (client : LanguageServiceClient) (text : String)
    (f1 f2 f3 f4 : Bool) (o : AnalysisOutcome)
    (h : analyzeText client text f1 f2 f3 f4 = Except.ok o) :
    sentimentBlock client { content := text, type := "PLAIN_TEXT" } f1 =
      Except.ok o.sentiment ∧
    entitiesBlock client { content := text, type := "PLAIN_TEXT" } f2 =
      Except.ok o.entities ∧
    syntaxBlock client { content := text, type := "PLAIN_TEXT" } f3 =
      Except.ok o.syntaxSlot ∧
    classifyBlock client { content := text, type := "PLAIN_TEXT" } f4 =
      Except.ok o.classification := by
  rw [analyzeText_def] at h
  cases h1 : sentimentBlock client { content := text, type := "PLAIN_TEXT" } f1 with
  | error e => rw [h1] at h; exact absurd h (by simp [Except.bind])
  | ok s =>
    rw [h1] at h
    cases h2 : entitiesBlock client { content := text, type := "PLAIN_TEXT" } f2 with
    | error e => rw [h2] at h; exact absurd h (by simp [Except.bind])
    | ok e =>
      rw [h2] at h
      cases h3 : syntaxBlock client { content := text, type := "PLAIN_TEXT" } f3 with
      | error er => rw [h3] at h; exact absurd h (by simp [Except.bind])
      | ok y =>
        rw [h3] at h
        cases h4 : classifyBlock client { content := text, type := "PLAIN_TEXT" } f4 with
        | error er => rw [h4] at h; exact absurd h (by simp [Except.bind])
        | ok c =>
          rw [h4] at h
          simp only [Except.bind] at h
          cases h
          exact ⟨rfl, rfl, rfl, rfl⟩

/-- The disjunction stating that some issued remote request fails: for at
least one of the four kinds, its flag is set and its call errors. -/
def someIssuedCallFails (client : LanguageServiceClient) (text : String)
    (f1 f2 f3 f4 : Bool) : Prop :=
  (f1 = true ∧ ∃ e, client.analyzeSentiment
    { content := text, type := "PLAIN_TEXT" } = Except.error e) ∨
  (f2 = true ∧ ∃ e, client.analyzeEntities
    { content := text, type := "PLAIN_TEXT" } = Except.error e) ∨
  (f3 = true ∧ ∃ e, client.analyzeSyntax
    { content := text, type := "PLAIN_TEXT" } = Except.error e) ∨
  (f4 = true ∧ ∃ e, client.classifyText
    { content := text, type := "PLAIN_TEXT" } = Except.error e)

/-- When some issued call fails, `analyzeText` rejects: sequencing in the
`Except` monad propagates the first error that occurs. -/
theorem analyzeText_error_of_fail (client : LanguageServiceClient)
    (text : String) (f1 f2 f3 f4 : Bool)
    (hfail : someIssuedCallFails client text f1 f2 f3 f4) :
    ∃ e, analyzeText client text f1 f2 f3 f4 = Except.error e := by
  cases h : analyzeText client text f1 f2 f3 f4 with
  | error e => exact ⟨e, rfl⟩
  | ok o =>
    exfalso
    obtain ⟨h1, h2, h3, h4⟩ := analyzeText_ok_inv client text f1 f2 f3 f4 o h
    rcases hfail with ⟨hf, e, hc⟩ | ⟨hf, e, hc⟩ | ⟨hf, e, hc⟩ | ⟨hf, e, hc⟩
    · rw [hf, sentimentBlock_error _ _ _ hc] at h1; exact absurd h1 (by simp)
    · rw [hf, entitiesBlock_error _ _ _ hc] at h2; exact absurd h2 (by simp)
    · rw [hf, syntaxBlock_error _ _ _ hc] at h3; exact absurd h3 (by simp)
    · rw [hf, classifyBlock_error _ _ _ hc] at h4; exact absurd h4 (by simp)

/-- The wrapper passes a successful run through unchanged. -/
theorem analyzeTextWrapper_of_ok (client : LanguageServiceClient)
    (text : String) (f1 f2 f3 f4 : Bool) (o : AnalysisOutcome)
    (h : analyzeText client text f1 f2 f3 f4 = Except.ok o) :
    analyzeTextWrapper client text f1 f2 f3 f4 = Except.ok o := by
  unfold analyzeTextWrapper
  rw [h]

/-- The wrapper catches a rejection and returns the placeholder outcome. -/
theorem analyzeTextWrapper_of_error (client : LanguageServiceClient)
    (text : String) (f1 f2 f3 f4 : Bool) (e : String)
    (h : analyzeText client text f1 f2 f3 f4 = Except.error e) :
    analyzeTextWrapper client text f1 f2 f3 f4 =
      Except.ok (dummyOutcome f1 f2 f3 f4) := by
  unfold analyzeTextWrapper
  rw [h]

/-- The wrapper never rejects, whatever the collaborator does. -/
theorem analyzeTextWrapper_total (client : LanguageServiceClient)
    (text : String) (f1 f2 f3 f4 : Bool) :
    ∃ o, analyzeTextWrapper client text f1 f2 f3 f4 = Except.ok o := by
  cases h : analyzeText client text f1 f2 f3 f4 with
  | ok r => exact ⟨r, analyzeTextWrapper_of_ok client text f1 f2 f3 f4 r h⟩
  | error e =>
    exact ⟨dummyOutcome f1 f2 f3 f4,
      analyzeTextWrapper_of_error client text f1 f2 f3 f4 e h⟩

/-- On a successful run of a sentiment block, the slot is null exactly when
the flag is cleared: the success value is always a nonempty list. -/
theorem sentimentBlock_none_iff (client : LanguageServiceClient)
    (d : Document) (b : Bool) (v : Option (List SentimentRecord))
    (h : sentimentBlock client d b = Except.ok v) : v = none ↔ b = false := by
  cases b
  · rw [sentimentBlock_false] at h
    cases h
    simp
  · cases hc : client.analyzeSentiment d with
    | error e => rw [sentimentBlock_error _ _ _ hc] at h; exact absurd h (by simp)
    | ok raw =>
      rw [sentimentBlock_ok _ _ _ hc] at h
      cases h
      simp

/-- On a successful run of an entities block, the slot is null exactly when
the flag is cleared. -/
theorem entitiesBlock_none_iff (client : LanguageServiceClient)
    (d : Document) (b : Bool) (v : Option (List Entity))
    (h : entitiesBlock client d b = Except.ok v) : v = none ↔ b = false := by
  cases b
  · rw [entitiesBlock_false] at h
    cases h
    simp
  · cases hc : client.analyzeEntities d with
    | error e => rw [entitiesBlock_error _ _ _ hc] at h; exact absurd h (by simp)
    | ok raw =>
      rw [entitiesBlock_ok _ _ _ hc] at h
      cases h
      simp

/-- On a successful run of a syntax block, the slot is null exactly when
the flag is cleared. -/
theorem syntaxBlock_none_iff (client : LanguageServiceClient)
    (d : Document) (b : Bool) (v : Option (List SyntaxRecord))
    (h : syntaxBlock client d b = Except.ok v) : v = none ↔ b = false := by
  cases b
  · rw [syntaxBlock_false] at h
    cases h
    simp
  · cases hc : client.analyzeSyntax d with
    | error e => rw [syntaxBlock_error _ _ _ hc] at h; exact absurd h (by simp)
    | ok raw =>
      rw [syntaxBlock_ok _ _ _ hc] at h
      cases h
      simp

/-- On a successful run of a classification block, the slot is null exactly
when the flag is cleared. -/
theorem classifyBlock_none_iff (client : LanguageServiceClient)
    (d : Document) (b : Bool) (v : Option (List ClassificationRecord))
    (h : classifyBlock client d b = Except.ok v) : v = none ↔ b = false := by
  cases b
  · rw [classifyBlock_false] at h
    cases h
    simp
  · cases hc : client.classifyText d with
    | error e => rw [classifyBlock_error _ _ _ hc] at h; exact absurd h (by simp)
    | ok raw =>
      rw [classifyBlock_ok _ _ _ hc] at h
      cases h
      simp

/-- A collaborator for whom every request fails, as when the service is
unreachable or authentication is rejected. -/
def failingClient : LanguageServiceClient :=
  { analyzeSentiment := fun _ => Except.error "service unavailable"
    analyzeEntities := fun _ => Except.error "service unavailable"
    analyzeSyntax := fun _ => Except.error "service unavailable"
    classifyText := fun _ => Except.error "service unavailable" }

/-- A raw entity carrying an additional attribute beyond name, type and
salience, as the real service supplies. -/
def entityWithExtra : Entity :=
  { name := "Rutgers", type := "ORGANIZATION", salience := 1,
    extra := [("wikipedia_url", "en.wikipedia.org/wiki/Rutgers_University")] }

/-- A sample raw sentence for the deterministic mock collaborator. -/
def sampleSentence : Sentence :=
  { text := { content := "I love this." },
    sentiment := { magnitude := 9/10, score := 9/10 } }

/-- A sample raw token carrying a lemma, morphology and a dependency edge
beyond the two attributes the code reads. -/
def sampleToken : Token :=
  { text := { content := "love" },
    partOfSpeech := { tag := "VERB", extra := [("mood", "INDICATIVE")] },
    lemma_ := "love",
    extra := [("dependencyEdge", "ROOT")] }

/-- A second sample raw token. -/
def sampleToken2 : Token :=
  { text := { content := "this" },
    partOfSpeech := { tag := "PRON", extra := [] },
    lemma_ := "this",
    extra := [] }

/-- Sample raw sentiment response of the deterministic mock collaborator. -/
def sampleSentimentResponse : SentimentResponse :=
  { documentSentiment := { magnitude := 9/10, score := 9/10 }
    sentences := [sampleSentence] }

/-- Sample raw entities response of the deterministic mock collaborator. -/
def sampleEntitiesResponse : EntitiesResponse :=
  { entities := [entityWithExtra] }

/-- Sample raw tokens response of the deterministic mock collaborator. -/
def sampleTokensResponse : TokensResponse :=
  { tokens := [sampleToken, sampleToken2] }

/-- An empty classification response, which the service commonly returns
for short documents. -/
def emptyClassifyResponse : ClassifyResponse :=
  { categories := [] }

/-- A deterministic mock collaborator for whom every request succeeds; its
classification result is empty. -/
def okClient : LanguageServiceClient :=
  { analyzeSentiment := fun _ => Except.ok sampleSentimentResponse
    analyzeEntities := fun _ => Except.ok sampleEntitiesResponse
    analyzeSyntax := fun _ => Except.ok sampleTokensResponse
    classifyText := fun _ => Except.ok emptyClassifyResponse }

/-- The outcome `analyzeText` produces for `okClient` with all four flags
set. -/
def sampleOutcome : AnalysisOutcome :=
  { sentiment := some
      [{ text := none, magnitude := 9/10, score := 9/10 },
       { text := some "I love this.", magnitude := 9/10, score := 9/10 }]
    entities := some [entityWithExtra]
    syntaxSlot := some
      [{ word := "love", partOfSpeech := "VERB" },
       { word := "this", partOfSpeech := "PRON" }]
    classification := some [] }

/-- C1: for every call with at least one flag set, if any one of the issued
remote requests fails, every slot of the returned outcome whose flag was
true equals its fixed placeholder value, every slot whose flag was false is
null, and no slot holds real collaborator data mixed with placeholder data:
the outcome is exactly the placeholder outcome. -/
theorem C1_fallback_is_total (client : LanguageServiceClient) (text : String)
    (f1 f2 f3 f4 : Bool)
    (_hflag : f1 = true ∨ f2 = true ∨ f3 = true ∨ f4 = true)
    (hfail : someIssuedCallFails client text f1 f2 f3 f4) :
    analyzeTextWrapper client text f1 f2 f3 f4 =
      Except.ok
        { sentiment := if f1 then some sentimentResultDummy else none
          entities := if f2 then some entityResultDummy else none
          syntaxSlot := if f3 then some syntaxResultDummy else none
          classification := if f4 then some classifyResultDummy else none } := by
  obtain ⟨e, he⟩ := analyzeText_error_of_fail client text f1 f2 f3 f4 hfail
  exact analyzeTextWrapper_of_error client text f1 f2 f3 f4 e he

/-- Witness for C1: the all-failing collaborator with only the sentiment
flag set yields the scenario-B outcome. -/
theorem C1_fallback_is_total_witness :
    ((true = true ∨ false = true ∨ false = true ∨ false = true) ∧
      someIssuedCallFails failingClient "I love this." true false false false) ∧
    analyzeTextWrapper failingClient "I love this." true false false false =
      Except.ok
        { sentiment := some sentimentResultDummy
          entities := none
          syntaxSlot := none
          classification := none } :=
  ⟨⟨Or.inl rfl, Or.inl ⟨rfl, "service unavailable", rfl⟩⟩,
   C1_fallback_is_total failingClient "I love this." true false false false
     (Or.inl rfl) (Or.inl ⟨rfl, "service unavailable", rfl⟩)⟩

/-- C2: for every input text, flag combination and collaborator behaviour,
the wrapped analyze operation never rejects and always returns a four-slot
outcome. -/
theorem C2_analyze_never_raises (client : LanguageServiceClient)
    (text : String) (f1 f2 f3 f4 : Bool) :
    ∃ o : AnalysisOutcome,
      analyzeTextWrapper client text f1 f2 f3 f4 = Except.ok o :=
  analyzeTextWrapper_total client text f1 f2 f3 f4

/-- C3: on both the success and the fallback path, slot i of the outcome is
null if and only if flag i is false. -/
theorem C3_flag_gating (client : LanguageServiceClient) (text : String)
    (f1 f2 f3 f4 : Bool) (o : AnalysisOutcome)
    (h : analyzeTextWrapper client text f1 f2 f3 f4 = Except.ok o) :
    (o.sentiment = none ↔ f1 = false) ∧
    (o.entities = none ↔ f2 = false) ∧
    (o.syntaxSlot = none ↔ f3 = false) ∧
    (o.classification = none ↔ f4 = false) := by
  cases hA : analyzeText client text f1 f2 f3 f4 with
  | ok r =>
    have hw := analyzeTextWrapper_of_ok client text f1 f2 f3 f4 r hA
    rw [hw] at h
    injection h with h
    subst h
    obtain ⟨h1, h2, h3, h4⟩ := analyzeText_ok_inv client text f1 f2 f3 f4 _ hA
    exact ⟨sentimentBlock_none_iff _ _ _ _ h1,
      entitiesBlock_none_iff _ _ _ _ h2,
      syntaxBlock_none_iff _ _ _ _ h3,
      classifyBlock_none_iff _ _ _ _ h4⟩
  | error e =>
    have hw := analyzeTextWrapper_of_error client text f1 f2 f3 f4 e hA
    rw [hw] at h
    injection h with h
    subst h
    refine ⟨?_, ?_, ?_, ?_⟩
    · cases f1 <;> simp [dummyOutcome]
    · cases f2 <;> simp [dummyOutcome]
    · cases f3 <;> simp [dummyOutcome]
    · cases f4 <;> simp [dummyOutcome]

/-- Witness for C3: the all-failing collaborator, flags (true, false, true,
false). -/
theorem C3_flag_gating_witness :
    analyzeTextWrapper failingClient "x" true false true false =
      Except.ok (dummyOutcome true false true false) ∧
    (((dummyOutcome true false true false).sentiment = none ↔ true = false) ∧
     ((dummyOutcome true false true false).entities = none ↔ false = false) ∧
     ((dummyOutcome true false true false).syntaxSlot = none ↔ true = false) ∧
     ((dummyOutcome true false true false).classification = none ↔
       false = false)) :=
  ⟨rfl, C3_flag_gating failingClient "x" true false true false
    (dummyOutcome true false true false) rfl⟩

/-- C4: on a successful call with the sentiment flag set, the sentiment
slot has length at least 1; element 0 carries exactly the document-level
magnitude and score with no text field, and elements 1..N carry text,
magnitude and score, one per collaborator sentence in document order. -/
theorem C4_sentiment_shape (client : LanguageServiceClient) (text : String)
    (f2 f3 f4 : Bool) (raw : SentimentResponse) (o : AnalysisOutcome)
    (hcall : client.analyzeSentiment { content := text, type := "PLAIN_TEXT" } =
      Except.ok raw)
    (h : analyzeText client text true f2 f3 f4 = Except.ok o) :
    ∃ l, o.sentiment = some l ∧
      l = { text := none
            magnitude := raw.documentSentiment.magnitude
            score := raw.documentSentiment.score } ::
          raw.sentences.map (fun sentence =>
            { text := some sentence.text.content
              magnitude := sentence.sentiment.magnitude
              score := sentence.sentiment.score }) ∧
      1 ≤ l.length := by
  obtain ⟨h1, -, -, -⟩ := analyzeText_ok_inv client text true f2 f3 f4 o h
  rw [sentimentBlock_ok _ _ _ hcall] at h1
  injection h1 with h1
  exact ⟨_, h1.symm, rfl, by simp⟩

/-- Witness for C4: the deterministic mock collaborator with every flag
set. -/
theorem C4_sentiment_shape_witness :
    (okClient.analyzeSentiment { content := "I love this.", type := "PLAIN_TEXT" } =
      Except.ok sampleSentimentResponse) ∧
    (analyzeText okClient "I love this." true true true true =
      Except.ok sampleOutcome) ∧
    ∃ l, sampleOutcome.sentiment = some l ∧
      l = { text := none
            magnitude := sampleSentimentResponse.documentSentiment.magnitude
            score := sampleSentimentResponse.documentSentiment.score } ::
          sampleSentimentResponse.sentences.map (fun sentence =>
            { text := some sentence.text.content
              magnitude := sentence.sentiment.magnitude
              score := sentence.sentiment.score }) ∧
      1 ≤ l.length :=
  ⟨rfl, rfl,
   C4_sentiment_shape okClient "I love this." true true true
     sampleSentimentResponse sampleOutcome rfl rfl⟩

/-- Counterexample to C5 as stated: the code passes raw entities through
without projecting them onto the three fields name, type and salience, so
an entity carrying an additional attribute reaches the caller with that
attribute intact rather than as its three-field projection. -/
theorem C5_projection_counterexample :
    analyzeText okClient "x" false true false false =
      Except.ok
        { sentiment := none, entities := some [entityWithExtra],
          syntaxSlot := none, classification := none } ∧
    [entityWithExtra] ≠ [entityWithExtra].map projEntity := by
  exact ⟨rfl, by decide⟩

/-- C5 amended: on a successful call with the entities flag set, the
entities slot is the collaborator's raw entity list passed through
unchanged and in order, including any attributes beyond name, type and
salience. -/
theorem C5_entities_passthrough (client : LanguageServiceClient)
    (text : String) (f1 f3 f4 : Bool) (raw : EntitiesResponse)
    (o : AnalysisOutcome)
    (hcall : client.analyzeEntities { content := text, type := "PLAIN_TEXT" } =
      Except.ok raw)
    (h : analyzeText client text f1 true f3 f4 = Except.ok o) :
    o.entities = some raw.entities := by
  obtain ⟨-, h2, -, -⟩ := analyzeText_ok_inv client text f1 true f3 f4 o h
  rw [entitiesBlock_ok _ _ _ hcall] at h2
  injection h2 with h2
  exact h2.symm

/-- Witness for the amended C5: the deterministic mock collaborator, whose
entity carries an extra attribute that survives to the outcome. -/
theorem C5_entities_passthrough_witness :
    (okClient.analyzeEntities { content := "x", type := "PLAIN_TEXT" } =
      Except.ok sampleEntitiesResponse) ∧
    ({ sentiment := none, entities := some [entityWithExtra],
       syntaxSlot := none,
       classification := none } : AnalysisOutcome).entities =
      some sampleEntitiesResponse.entities :=
  ⟨rfl,
   C5_entities_passthrough okClient "x" false false false
     sampleEntitiesResponse
     { sentiment := none, entities := some [entityWithExtra],
       syntaxSlot := none, classification := none } rfl rfl⟩

/-- C6: on a successful call with the syntax flag set, the syntax slot has
one record per collaborator token in document order, built from exactly the
token text and part-of-speech tag; the record type has no further field, so
no lemma, morphology or dependency attribute is carried over. -/
theorem C6_token_projection (client : LanguageServiceClient) (text : String)
    (f1 f2 f4 : Bool) (raw : TokensResponse) (o : AnalysisOutcome)
    (hcall : client.analyzeSyntax { content := text, type := "PLAIN_TEXT" } =
      Except.ok raw)
    (h : analyzeText client text f1 f2 true f4 = Except.ok o) :
    o.syntaxSlot = some (raw.tokens.map fun token =>
      { word := token.text.content
        partOfSpeech := token.partOfSpeech.tag }) := by
  obtain ⟨-, -, h3, -⟩ := analyzeText_ok_inv client text f1 f2 true f4 o h
  rw [syntaxBlock_ok _ _ _ hcall] at h3
  injection h3 with h3
  exact h3.symm

/-- Witness for C6: the deterministic mock collaborator, whose tokens carry
lemmas, morphology and dependency edges that are all dropped. -/
theorem C6_token_projection_witness :
    (okClient.analyzeSyntax { content := "I love this.", type := "PLAIN_TEXT" } =
      Except.ok sampleTokensResponse) ∧
    sampleOutcome.syntaxSlot = some (sampleTokensResponse.tokens.map fun token =>
      { word := token.text.content
        partOfSpeech := token.partOfSpeech.tag }) :=
  ⟨rfl,
   C6_token_projection okClient "I love this." true true true
     sampleTokensResponse sampleOutcome rfl rfl⟩

/-- A sentiment block whose call succeeds whenever issued returns ok. -/
theorem sentimentBlock_exists_ok (client : LanguageServiceClient)
    (d : Document) (f : Bool)
    (h : f = true → ∃ raw, client.analyzeSentiment d = Except.ok raw) :
    ∃ v, sentimentBlock client d f = Except.ok v := by
  cases f
  · exact ⟨none, rfl⟩
  · obtain ⟨raw, hr⟩ := h rfl
    exact ⟨_, sentimentBlock_ok _ _ _ hr⟩

/-- An entities block whose call succeeds whenever issued returns ok. -/
theorem entitiesBlock_exists_ok (client : LanguageServiceClient)
    (d : Document) (f : Bool)
    (h : f = true → ∃ raw, client.analyzeEntities d = Except.ok raw) :
    ∃ v, entitiesBlock client d f = Except.ok v := by
  cases f
  · exact ⟨none, rfl⟩
  · obtain ⟨raw, hr⟩ := h rfl
    exact ⟨_, entitiesBlock_ok _ _ _ hr⟩

/-- A syntax block whose call succeeds whenever issued returns ok. -/
theorem syntaxBlock_exists_ok (client : LanguageServiceClient)
    (d : Document) (f : Bool)
    (h : f = true → ∃ raw, client.analyzeSyntax d = Except.ok raw) :
    ∃ v, syntaxBlock client d f = Except.ok v := by
  cases f
  · exact ⟨none, rfl⟩
  · obtain ⟨raw, hr⟩ := h rfl
    exact ⟨_, syntaxBlock_ok _ _ _ hr⟩

/-- C7: when the classification flag is set, the collaborator returns an
empty category list for it, and every other issued request succeeds, the
call succeeds with `classification = some []`; the empty result is not an
error and the wrapper does not fall back to the placeholders. -/
theorem C7_empty_classification_is_valid (client : LanguageServiceClient)
    (text : String) (f1 f2 f3 : Bool)
    (h1 : f1 = true → ∃ raw, client.analyzeSentiment
      { content := text, type := "PLAIN_TEXT" } = Except.ok raw)
    (h2 : f2 = true → ∃ raw, client.analyzeEntities
      { content := text, type := "PLAIN_TEXT" } = Except.ok raw)
    (h3 : f3 = true → ∃ raw, client.analyzeSyntax
      { content := text, type := "PLAIN_TEXT" } = Except.ok raw)
    (hcls : client.classifyText { content := text, type := "PLAIN_TEXT" } =
      Except.ok { categories := [] }) :
    ∃ o, analyzeText client text f1 f2 f3 true = Except.ok o ∧
      o.classification = some [] ∧
      analyzeTextWrapper client text f1 f2 f3 true = Except.ok o := by
  obtain ⟨s, hs⟩ := sentimentBlock_exists_ok client
    { content := text, type := "PLAIN_TEXT" } f1 h1
  obtain ⟨e, he⟩ := entitiesBlock_exists_ok client
    { content := text, type := "PLAIN_TEXT" } f2 h2
  obtain ⟨y, hy⟩ := syntaxBlock_exists_ok client
    { content := text, type := "PLAIN_TEXT" } f3 h3
  have hc : classifyBlock client { content := text, type := "PLAIN_TEXT" }
      true = Except.ok (some []) := by
    simp [classifyBlock, hcls, Except.map]
  have hOk : analyzeText client text f1 f2 f3 true =
      Except.ok (AnalysisOutcome.mk s e y (some [])) := by
    rw [analyzeText_def]
    simp only [hs, he, hy, hc, Except.bind]
  exact ⟨_, hOk, rfl,
    analyzeTextWrapper_of_ok client text f1 f2 f3 true _ hOk⟩

/-- Witness for C7: the deterministic mock collaborator, whose
classification result is empty, with all flags set. -/
theorem C7_empty_classification_is_valid_witness :
    (okClient.classifyText { content := "I love this.", type := "PLAIN_TEXT" } =
      Except.ok { categories := [] }) ∧
    ∃ o, analyzeText okClient "I love this." true true true true =
        Except.ok o ∧
      o.classification = some [] ∧
      analyzeTextWrapper okClient "I love this." true true true true =
        Except.ok o :=
  ⟨rfl,
   C7_empty_classification_is_valid okClient "I love this." true true true
     (fun _ => ⟨sampleSentimentResponse, rfl⟩)
     (fun _ => ⟨sampleEntitiesResponse, rfl⟩)
     (fun _ => ⟨sampleTokensResponse, rfl⟩) rfl⟩

/-- C8: the facade is a pure function of the collaborator, the text and the
flags, retaining no state across calls: two calls with identical inputs
yield identical outcomes. -/
theorem C8_idempotent_mapping (c1 c2 : LanguageServiceClient)
    (t1 t2 : String) (a1 a2 b1 b2 d1 d2 e1 e2 : Bool)
    (hc : c1 = c2) (ht : t1 = t2) (ha : a1 = a2) (hb : b1 = b2)
    (hd : d1 = d2) (he : e1 = e2) :
    analyzeTextWrapper c1 t1 a1 b1 d1 e1 =
      analyzeTextWrapper c2 t2 a2 b2 d2 e2 := by
  subst hc; subst ht; subst ha; subst hb; subst hd; subst he; rfl

/-- Witness for C8: two calls on the deterministic mock collaborator with
identical arguments. -/
theorem C8_idempotent_mapping_witness :
    analyzeTextWrapper okClient "I love this." true true true true =
      analyzeTextWrapper okClient "I love this." true true true true :=
  C8_idempotent_mapping okClient okClient "I love this." "I love this."
    true true true true true true true true rfl rfl rfl rfl rfl rfl

/-- C9: the module exports `analyzeText`, which propagates any collaborator
failure to its caller as a rejection; only the non-exported wrapper
converts failures into the placeholder outcome. -/
theorem C9_export_propagates_failure (client : LanguageServiceClient)
    (text : String) (f1 f2 f3 f4 : Bool)
    (hfail : someIssuedCallFails client text f1 f2 f3 f4) :
    moduleExports = analyzeText ∧
    (∃ e, moduleExports client text f1 f2 f3 f4 = Except.error e) ∧
    analyzeTextWrapper client text f1 f2 f3 f4 =
      Except.ok (dummyOutcome f1 f2 f3 f4) := by
  obtain ⟨e, he⟩ := analyzeText_error_of_fail client text f1 f2 f3 f4 hfail
  exact ⟨rfl, ⟨e, he⟩,
    analyzeTextWrapper_of_error client text f1 f2 f3 f4 e he⟩

/-- Witness for C9: the all-failing collaborator with all four flags set. -/
theorem C9_export_propagates_failure_witness :
    someIssuedCallFails failingClient "x" true true true true ∧
    (moduleExports = analyzeText ∧
     (∃ e, moduleExports failingClient "x" true true true true =
       Except.error e) ∧
     analyzeTextWrapper failingClient "x" true true true true =
       Except.ok (dummyOutcome true true true true)) :=
  ⟨Or.inl ⟨rfl, "service unavailable", rfl⟩,
   C9_export_propagates_failure failingClient "x" true true true true
     (Or.inl ⟨rfl, "service unavailable", rfl⟩)⟩

/-- C10: on a successful call, each produced slot has the length determined
by the collaborator response for its kind: sentiment is one more than the
number of sentences, the syntax slot matches the number of tokens, and the
classification slot matches the number of categories. -/
theorem C10_slot_lengths (client : LanguageServiceClient) (text : String)
    (f1 f2 f3 f4 : Bool) (o : AnalysisOutcome)
    (h : analyzeText client text f1 f2 f3 f4 = Except.ok o) :
    (∀ raw, f1 = true →
      client.analyzeSentiment { content := text, type := "PLAIN_TEXT" } =
        Except.ok raw →
      ∃ l, o.sentiment = some l ∧ l.length = raw.sentences.length + 1) ∧
    (∀ raw, f3 = true →
      client.analyzeSyntax { content := text, type := "PLAIN_TEXT" } =
        Except.ok raw →
      ∃ l, o.syntaxSlot = some l ∧ l.length = raw.tokens.length) ∧
    (∀ raw, f4 = true →
      client.classifyText { content := text, type := "PLAIN_TEXT" } =
        Except.ok raw →
      ∃ l, o.classification = some l ∧
        l.length = raw.categories.length) := by
  obtain ⟨h1, h2, h3, h4⟩ := analyzeText_ok_inv client text f1 f2 f3 f4 o h
  refine ⟨?_, ?_, ?_⟩
  · intro raw hf hc
    subst hf
    rw [sentimentBlock_ok _ _ _ hc] at h1
    injection h1 with h1
    exact ⟨_, h1.symm, by simp⟩
  · intro raw hf hc
    subst hf
    rw [syntaxBlock_ok _ _ _ hc] at h3
    injection h3 with h3
    exact ⟨_, h3.symm, by simp⟩
  · intro raw hf hc
    subst hf
    rw [classifyBlock_ok _ _ _ hc] at h4
    injection h4 with h4
    exact ⟨_, h4.symm, by simp⟩

/-- Witness for C10: the deterministic mock collaborator with all flags
set; one sentence, two tokens, zero categories. -/
theorem C10_slot_lengths_witness :
    (analyzeText okClient "I love this." true true true true =
      Except.ok sampleOutcome) ∧
    (∃ l, sampleOutcome.sentiment = some l ∧
      l.length = sampleSentimentResponse.sentences.length + 1) ∧
    (∃ l, sampleOutcome.syntaxSlot = some l ∧
      l.length = sampleTokensResponse.tokens.length) ∧
    (∃ l, sampleOutcome.classification = some l ∧
      l.length = emptyClassifyResponse.categories.length) :=
  ⟨rfl,
   (C10_slot_lengths okClient "I love this." true true true true
     sampleOutcome rfl).1 sampleSentimentResponse rfl rfl,
   (C10_slot_lengths okClient "I love this." true true true true
     sampleOutcome rfl).2.1 sampleTokensResponse rfl rfl,
   (C10_slot_lengths okClient "I love this." true true true true
     sampleOutcome rfl).2.2 emptyClassifyResponse rfl rfl⟩
